import Mathlib

/-!
Shallow embedding of the two discovery listeners of the Assimilation CMA slice:
`cma/checksumdiscovery.py` (class `TCPDiscoveryChecksumGenerator`) and
`cma/linkdiscovery.py` (class `LinkDiscoveryListener`).

Python dicts are embedded as association lists `List (String × v)` whose order
is the dict's iteration order; optional dict fields become `Option` fields of a
structure.  Side effects (graph-store calls, log lines, emitted events,
discovery requests) are returned as explicit traces, and Python exceptions that
escape a handler (`KeyError` outside a `try`, `AssertionError` under an
`except KeyError`) become an `Option PyError` abort marker.
-/

set_option autoImplicit false

/-- Result of looking a key up in an association list embedded from a Python
dict: `List.lookup` with string keys. -/
abbrev dictGet (m : List (String × String)) (k : String) : Option String :=
  List.lookup k m

/-! ## Checksum discovery listener (`cma/checksumdiscovery.py`) -/

/-- One entry of the `data` map of a `checksum` packet: file name mapped to the
checksum-command output for that file. -/
abbrev ChecksumData := List (String × String)

/-- A `checksum` discovery packet as consumed by `processchecksumpkt`: its
`discovertype` and its `data` map.  The stored snapshot `JSON_OLD_checksums`
keeps the raw packet (the source stores `str(jsonobj)` and re-parses its
`data` member on the next diff). -/
structure ChecksumPacket where
  discovertype : String
  data : ChecksumData
  deriving DecidableEq, Repr

/-- An event handed to `AssimEvent(drone, AssimEvent.OBJUPDATE, extrainfo)`;
`extrainfo` is `{CHANGETYPE: 'checksums', changes: changes}` in the source. -/
structure AssimEventRec where
  eventtype : String
  changetype : String
  changes : List (String × String × String)
  deriving DecidableEq, Repr

/-- Change entry produced by one iteration of the loop of `compare_checksums`:
from the old-map entry `p` (a file name and its old checksum), look the file up
in the new map; absent keys and unchanged values yield nothing, a differing
value yields the `(file, (oldchecksum, newchecksum))` record. -/
def cc_entry (newobj : ChecksumData) (p : String × String) :
    Option (String × String × String) :=
  match dictGet newobj p.1 with
  | none => none
  | some newchecksum =>
      if p.2 = newchecksum then none else some (p.1, p.2, newchecksum)

/-- Loop body of `compare_checksums`: `continue` when the key is absent from
the new map or the value is unchanged, otherwise append the change (the source
also logs one warning per change, counted separately below). -/
def cc_step (newobj : ChecksumData) (changes : List (String × String × String))
    (p : String × String) : List (String × String × String) :=
  match cc_entry newobj p with
  | none => changes
  | some c => changes ++ [c]

/-- Changes map built by the loop of `compare_checksums` over the keys of the
old `data` map (dict iteration order). -/
def compare_checksums_changes (oldobj newobj : ChecksumData) :
    List (String × String × String) :=
  oldobj.foldl (cc_step newobj) []

/-- Embedding of `TCPDiscoveryChecksumGenerator.compare_checksums`: returns the
changes map, the number of warning log lines (one per change), and the list of
`AssimEvent` emissions.  In the source the `AssimEvent` constructor call sits
after the loop, unconditionally, so exactly one event is emitted per call. -/
def compare_checksums (oldobj newobj : ChecksumData) :
    List (String × String × String) × Nat × List AssimEventRec :=
  let changes := compare_checksums_changes oldobj newobj
  (changes, changes.length, [⟨"OBJUPDATE", "checksums", changes⟩])

/-- Embedding of `TCPDiscoveryChecksumGenerator.processchecksumpkt`: the drone
state is the optional stored snapshot (`JSON_OLD_checksums`, absent until the
first checksum packet).  Returns the new stored snapshot, the changes map, the
warning count and the emitted events; when no snapshot is stored the diff is
skipped entirely and only the snapshot is (over)written. -/
def processchecksumpkt (old : Option ChecksumPacket) (jsonobj : ChecksumPacket) :
    Option ChecksumPacket × List (String × String × String) × Nat × List AssimEventRec :=
  match old with
  | none => (some jsonobj, [], 0, [])
  | some oldpkt =>
      let r := compare_checksums oldpkt.data jsonobj.data
      (some jsonobj, r)

/-! ### Probe construction (`processtcpdiscoverypkt`) -/

/-- One process entry of a `tcpdiscovery` packet's `data` map: the optional
`exe` and `cmdline` fields the source reads. -/
structure ProcInfo where
  exe : Option String
  cmdline : Option (List String)
  deriving DecidableEq, Repr

/-- Split of a character list at every occurrence of `sep`, keeping empty
segments, as Python's `str.split(sep)` does on its characters. -/
def split_chars (sep : Char) : List Char → List (List Char)
  | [] => [[]]
  | c :: rest =>
      match split_chars sep rest with
      | [] => [[]]
      | g :: gs => if c = sep then [] :: g :: gs else (c :: g) :: gs

/-- Embedding of Python's `s.split(sep)` for a one-character separator:
`"".split(sep)` is `[""]` and empty segments are kept. -/
def py_split (s : String) (sep : Char) : List String :=
  (split_chars sep s.data).map (fun cs => String.mk cs)

/-- Embedding of Python's `s.endswith(t)` on the character sequences. -/
def py_endswith (s t : String) : Bool :=
  t.data.isSuffixOf s.data

/-- Classpath scan of `processtcpdiscoverypkt`: walk `cmdline`, and at the
first `-cp` that is followed by another token, split that following token on
colons and stop (`break` in the source); a trailing `-cp` with nothing after
it yields nothing. -/
def find_cp_jars : List String → List String
  | [] => []
  | [_] => []
  | a :: b :: rest =>
      if a = "-cp" then py_split b ':' else find_cp_jars (b :: rest)

/-- Files contributed to `ASSIM_filelist` by one process entry: nothing without
an `exe` field; otherwise the executable path, followed (when the path ends in
`/java` and a `cmdline` field exists) by the classpath jars. -/
def proc_files (procinfo : ProcInfo) : List String :=
  match procinfo.exe with
  | none => []
  | some exename =>
      exename ::
        (if py_endswith exename "/java" then
          match procinfo.cmdline with
          | none => []
          | some cmdline => find_cp_jars cmdline
        else [])

/-- The fixed `ASSIM_sumcmds` list of `processtcpdiscoverypkt`. -/
def ASSIM_sumcmds : List String :=
  ["/usr/bin/sha256sum", "/usr/bin/sha224sum", "/usr/bin/sha384sum",
   "/usr/bin/sha512sum", "/usr/bin/sha1sum", "/usr/bin/md5sum",
   "/usr/bin/cksum", "/usr/bin/crc32"]

/-- The initial `ASSIM_filelist` literal of `processtcpdiscoverypkt`, before
the per-process loop appends anything. -/
def base_filelist : List String :=
  ["/bin/sh", "/bin/bash", "/bin/login", "/usr/bin/passwd", "/tmp/foobar"]

/-- The discovery request issued by `drone.request_discovery('_auto-checksums',
30, ...)`: its name, repeat interval, and the two parameter lists. -/
structure ChecksumRequest where
  reqname : String
  interval : Nat
  sumcmds : List String
  filelist : List String
  deriving DecidableEq, Repr

/-- Embedding of `TCPDiscoveryChecksumGenerator.processtcpdiscoverypkt`: the
file list is the initial literal followed by each process entry's files in
dict iteration order (the loop appends per process). -/
def processtcpdiscoverypkt (data : List (String × ProcInfo)) : ChecksumRequest :=
  { reqname := "_auto-checksums"
    interval := 30
    sumcmds := ASSIM_sumcmds
    filelist := base_filelist ++ (data.map fun p => proc_files p.2).flatten }

/-! ### Helper lemmas for the checksum listener -/

/-- The change-accumulating fold is the `filterMap` of `cc_entry` over the old
map. -/
theorem compare_checksums_changes_eq_filterMap (oldobj newobj : ChecksumData) :
    compare_checksums_changes oldobj newobj = oldobj.filterMap (cc_entry newobj) := by
  suffices h : ∀ (l : ChecksumData) (init : List (String × String × String)),
      l.foldl (cc_step newobj) init = init ++ l.filterMap (cc_entry newobj) by
    simpa using h oldobj []
  intro l
  induction l with
  | nil => intro init; simp
  | cons p t ih =>
      intro init
      rw [List.foldl_cons, List.filterMap_cons, ih]
      unfold cc_step
      cases cc_entry newobj p <;> simp

/-- In an association list whose keys are distinct, `List.lookup` returning a
value is the same as the pair being a member. -/
theorem lookup_eq_some_iff_mem (l : List (String × String))
    (h : (l.map Prod.fst).Nodup) (k v : String) :
    List.lookup k l = some v ↔ (k, v) ∈ l := by
  induction l with
  | nil => simp
  | cons p t ih =>
      obtain ⟨a, b⟩ := p
      simp only [List.map_cons, List.nodup_cons, List.mem_map] at h
      obtain ⟨ha, ht⟩ := h
      by_cases hk : k = a
      · subst hk
        simp only [List.lookup_cons, beq_self_eq_true, List.mem_cons, Prod.mk.injEq, true_and]
        constructor
        · rintro h; exact Or.inl (Option.some.inj h).symm
        · rintro (rfl | hmem)
          · rfl
          · exact absurd ⟨(k, v), hmem, rfl⟩ ha
      · have hbeq : (k == a) = false := beq_false_of_ne hk
        simp only [List.lookup_cons, hbeq, List.mem_cons, Prod.mk.injEq]
        rw [ih ht]
        exact ⟨Or.inr, fun h => h.elim (fun ⟨h1, _⟩ => absurd h1 hk) id⟩

/-- Membership characterisation of `cc_entry` output. -/
theorem cc_entry_eq_some_iff (newobj : ChecksumData) (p : String × String)
    (k o n : String) :
    cc_entry newobj p = some (k, o, n) ↔
      p = (k, o) ∧ dictGet newobj k = some n ∧ o ≠ n := by
  obtain ⟨pk, pv⟩ := p
  unfold cc_entry
  cases hlk : dictGet newobj pk with
  | none =>
      simp only [Prod.mk.injEq]
      constructor
      · intro h; cases h
      · rintro ⟨⟨rfl, rfl⟩, hsome, _⟩; rw [hlk] at hsome; cases hsome
  | some nc =>
      by_cases hv : pv = nc
      · subst hv
        simp only [if_pos rfl, Prod.mk.injEq]
        constructor
        · intro h; cases h
        · rintro ⟨⟨rfl, rfl⟩, hsome, hne⟩
          rw [hlk] at hsome
          exact absurd (Option.some.inj hsome) hne
      · simp only [if_neg hv, Option.some.injEq, Prod.mk.injEq]
        constructor
        · rintro ⟨rfl, rfl, rfl⟩
          exact ⟨⟨rfl, rfl⟩, hlk, hv⟩
        · rintro ⟨⟨rfl, rfl⟩, hsome, _⟩
          rw [hlk] at hsome
          exact ⟨rfl, rfl, (Option.some.inj hsome)⟩

/-! ## Link discovery listener (`cma/linkdiscovery.py`) -/

/-- One network-device entry of a `netconfig` packet's `data` map; the three
fields `discovery_indicates_link_is_up` reads, already stringified (the source
applies `str(...)` to the dict values). -/
structure DevInfo where
  operstate : Option String
  carrier : Option String
  address : Option String
  deriving DecidableEq, Repr

/-- Embedding of the module-level `discovery_indicates_link_is_up`: field
presence plus value tests, in source order. -/
def discovery_indicates_link_is_up (devinfo : DevInfo) : Bool :=
  devinfo.operstate.isSome && devinfo.carrier.isSome && devinfo.address.isSome
    && (devinfo.operstate.getD "" == "up") && (devinfo.carrier.getD "" == "True")
    && (devinfo.address.getD "" != "00-00-00-00-00-00")
    && (devinfo.address.getD "" != "")

/-- One switch-discovery parameter set built from `init_params` in
`processpkt_netconfig`: the copied base parameters plus the three keys the
source sets (`CONFIGNAME_INSTANCE`, `CONFIGNAME_DEVNAME`,
`CONFIGNAME_SWPROTOS`). -/
structure SwParams where
  base : List (String × String)
  instname : String
  devname : String
  swprotos : List String
  deriving DecidableEq, Repr

/-- Parameter set the loop of `processpkt_netconfig` appends for device
`devname`. -/
def sw_params (init_params : List (String × String)) (devname : String) : SwParams :=
  { base := init_params
    instname := "#SWITCH_" ++ devname
    devname := devname
    swprotos := ["lldp", "cdp"] }

/-- Embedding of `LinkDiscoveryListener.processpkt_netconfig`: returns the
list of `drone.request_discovery` calls made, each carrying its batch of
parameter sets.  The loop collects one parameter set per link-up device in
dict order; one request is issued only when the batch is non-empty. -/
def processpkt_netconfig (init_params : List (String × String))
    (data : List (String × DevInfo)) : List (List SwParams) :=
  let discovery_args := data.foldl
    (fun acc p =>
      if discovery_indicates_link_is_up p.2 then acc ++ [sw_params init_params p.1]
      else acc) []
  if discovery_args.isEmpty then [] else [discovery_args]

/-! ### Link-discovery packets (`processpkt_linkdiscovery` and helpers) -/

/-- Graph-store mutation, as called on `self.store`; the `keys` strings record
the identifying arguments of each call (designation, macaddr and ifname, or
address) so traces distinguish which node or edge each call concerns. -/
inductive GraphAction where
  | loadOrCreate (kind : String) (keys : List String)
  | relate (rel : String) (key : String)
  | relateNew (rel : String) (key : String)
  | addRole (role : String)
  deriving DecidableEq, Repr

/-- Log line kinds issued through `self.log`. -/
inductive LogEvent where
  | warning
  | error
  | info
  deriving DecidableEq, Repr

/-- Python exception escaping the listener: a `KeyError` raised outside any
`try`, or the `AssertionError` of the `assert` statement, which the
`except KeyError` handler does not catch. -/
inductive PyError where
  | keyError
  | assertionError
  deriving DecidableEq, Repr

/-- Address family returned by `pyNetAddr(...).addrtype()`; the classifier
itself lives in the external `AssimCclasses` module, so it is a parameter of
the embedding. -/
inductive AddrFamily where
  | ipv4
  | ipv6
  | mac802
  | other
  deriving DecidableEq, Repr

/-- One entry of the `ports` map of a `__LinkDiscovery` packet, with the four
fields `_process_ports` reads. -/
structure Port where
  portId : Option String
  sourceMAC : Option String
  connectsToHost : Option String
  connectsToInterface : Option String
  deriving DecidableEq, Repr

/-- The `data` map of a `__LinkDiscovery` packet, split into the fields
`processpkt_linkdiscovery` treats specially.  `systemCapabilities` maps each
capability name to the truthiness of its value; `ports` is the port map in
dict iteration order. -/
structure LinkData where
  chassisId : Option String
  systemCapabilities : Option (List (String × Bool))
  managementAddress : Option String
  ports : List (String × Port)
  deriving DecidableEq, Repr

/-- Embedding of `LinkDiscoveryListener._process_mgmt_addr`, parameterised by
the external address classifier `addrtype` and `pyNetAddr` equality `addreq`.
Returns the graph calls and log lines in source order. -/
def process_mgmt_addr (addrtype : String → AddrFamily)
    (addreq : String → String → Bool) (chassisid mgmtaddr : String) :
    List GraphAction × List LogEvent :=
  match addrtype mgmtaddr with
  | AddrFamily.ipv4 | AddrFamily.ipv6 =>
      match addrtype chassisid with
      | AddrFamily.mac802 =>
          ([GraphAction.loadOrCreate "NICNode" [chassisid, "(adminNIC)"],
            GraphAction.loadOrCreate "IPaddrNode" [mgmtaddr],
            GraphAction.relateNew "nicowner" "(adminNIC)",
            GraphAction.relateNew "ipowner" mgmtaddr], [])
      | _ =>
          ([], LogEvent.info ::
            (if addreq mgmtaddr chassisid then []
             else [LogEvent.warning, LogEvent.warning]))
  | AddrFamily.mac802 =>
      ([GraphAction.loadOrCreate "NICNode" [mgmtaddr, "(ManagementAddress)"],
        GraphAction.relateNew "nicowner" "(ManagementAddress)"], [])
  | AddrFamily.other => ([], [])

/-- Body of the loop of `LinkDiscoveryListener._process_ports` for a single
port.  Reading `thisport['PortId']` happens outside the `try`, so a missing
`PortId` raises an uncaught `KeyError`; inside the `try`, a missing
`ConnectsToHost` or `ConnectsToInterface` raises a `KeyError` that the handler
catches and logs, while a present `ConnectsToHost` differing from the drone's
designation fails the `assert`, whose `AssertionError` the `except KeyError`
does not catch; the graph calls already made for that port stand.  The
`wiredto` edge goes to the first drone NIC whose `ifname` matches (the loop
breaks). -/
def process_one_port (designation : String) (niclist : List String)
    (chassisid : String) (thisport : Port) :
    List GraphAction × List LogEvent × Option PyError :=
  match thisport.portId with
  | none => ([], [], some PyError.keyError)
  | some portid =>
      let nicmac := thisport.sourceMAC.getD chassisid
      let acts := [GraphAction.loadOrCreate "NICNode" [nicmac, portid],
                   GraphAction.relate "nicowner" portid]
      match thisport.connectsToHost with
      | none => (acts, [LogEvent.error], none)
      | some h =>
          if h = designation then
            match thisport.connectsToInterface with
            | none => (acts, [LogEvent.error], none)
            | some matchif =>
                match niclist.find? (fun n => n == matchif) with
                | some dronenic =>
                    (acts ++ [GraphAction.relateNew "wiredto" dronenic], [], none)
                | none => (acts, [], none)
          else (acts, [], some PyError.assertionError)

/-- Embedding of `LinkDiscoveryListener._process_ports`: process the ports in
dict order, accumulating graph calls and log lines; an uncaught exception
aborts the loop, discarding no prior effect but processing no later port. -/
def process_ports (designation : String) (niclist : List String)
    (chassisid : String) :
    List (String × Port) → List GraphAction × List LogEvent × Option PyError
  | [] => ([], [], none)
  | (_, thisport) :: rest =>
      let r1 := process_one_port designation niclist chassisid thisport
      match r1.2.2 with
      | some e => (r1.1, r1.2.1, some e)
      | none =>
          let r := process_ports designation niclist chassisid rest
          (r1.1 ++ r.1, r1.2.1 ++ r.2.1, r.2.2)

/-- Embedding of `LinkDiscoveryListener.processpkt_linkdiscovery`: a missing
`ChassisId` logs one warning and returns before any graph call; otherwise the
switch upsert, role assignment (default `bridge` when `SystemCapabilities` is
absent, else one role per truthy capability), the optional management-address
handling and the port loop run in source order. -/
def processpkt_linkdiscovery (addrtype : String → AddrFamily)
    (addreq : String → String → Bool) (designation : String)
    (niclist : List String) (data : LinkData) :
    List GraphAction × List LogEvent × Option PyError :=
  match data.chassisId with
  | none => ([], [LogEvent.warning], none)
  | some chassisid =>
      let switchActs := [GraphAction.loadOrCreate "SystemNode" [chassisid]]
      let roleActs :=
        match data.systemCapabilities with
        | none => [GraphAction.addRole "bridge"]
        | some caps =>
            caps.filterMap fun c =>
              if c.2 then some (GraphAction.addRole c.1) else none
      let mgmt :=
        match data.managementAddress with
        | none => ([], [])
        | some mgmtaddr => process_mgmt_addr addrtype addreq chassisid mgmtaddr
      let pr := process_ports designation niclist chassisid data.ports
      (switchActs ++ roleActs ++ mgmt.1 ++ pr.1, mgmt.2 ++ pr.2.1, pr.2.2)

/-- A packet delivered to `LinkDiscoveryListener.processpkt`, split by its
`discovertype` field; `other` covers every unrecognised value. -/
inductive LDPkt where
  | linkDiscovery (data : LinkData)
  | netconfig (data : List (String × DevInfo))
  | other (discovertype : String)
  deriving Repr

/-- Everything `LinkDiscoveryListener.processpkt` does: graph calls, log
lines, `request_discovery` calls, whether the bad-packet-type line was printed
to stderr, and the escaping exception if any. -/
structure LDTrace where
  actions : List GraphAction
  logs : List LogEvent
  requests : List (List SwParams)
  oops : Bool
  err : Option PyError
  deriving Repr

/-- Embedding of `LinkDiscoveryListener.processpkt`: when the
`discoverychanged` flag is false the method returns at once, before reading
the packet; otherwise it branches on `discovertype`. -/
def processpkt (addrtype : String → AddrFamily)
    (addreq : String → String → Bool) (designation : String)
    (init_params : List (String × String)) (niclist : List String)
    (jsonobj : LDPkt) (discoverychanged : Bool) : LDTrace :=
  if discoverychanged = false then
    { actions := [], logs := [], requests := [], oops := false, err := none }
  else
    match jsonobj with
    | LDPkt.linkDiscovery data =>
        let r := processpkt_linkdiscovery addrtype addreq designation niclist data
        { actions := r.1, logs := r.2.1, requests := [], oops := false, err := r.2.2 }
    | LDPkt.netconfig data =>
        { actions := [], logs := [],
          requests := processpkt_netconfig init_params data,
          oops := false, err := none }
    | LDPkt.other _ =>
        { actions := [], logs := [], requests := [], oops := true, err := none }

/-! ## Claim theorems -/

/-- C1 counterexample: on old `{a: x, b: y}` and new `{a: x, b: z, c: w}` the
recorded pair for `b` is `(y, z)` — the old value of `b` is `y` — not the
`(x, z)` the claim states. -/
theorem claim1_counterexample :
    compare_checksums_changes [("a", "x"), ("b", "y")]
        [("a", "x"), ("b", "z"), ("c", "w")] ≠ [("b", "x", "z")] ∧
    compare_checksums_changes [("a", "x"), ("b", "y")]
        [("a", "x"), ("b", "z"), ("c", "w")] = [("b", "y", "z")] := by
  exact ⟨by decide, rfl⟩

/-- C1 (amended): `compare_checksums` records a change for exactly the keys
present in both maps whose values differ, recording `(oldValue, newValue)`;
keys present only in one map are never recorded.  On the example maps the
changes map is exactly `{b: (y, z)}`. -/
theorem claim1_changes_characterisation :
    (∀ (oldobj newobj : ChecksumData), (oldobj.map Prod.fst).Nodup →
      ∀ k o n, ((k, o, n) ∈ compare_checksums_changes oldobj newobj ↔
        (List.lookup k oldobj = some o ∧ List.lookup k newobj = some n ∧ o ≠ n)))
    ∧ compare_checksums_changes [("a", "x"), ("b", "y")]
        [("a", "x"), ("b", "z"), ("c", "w")] = [("b", "y", "z")] := by
  constructor
  · intro oldobj newobj hnodup k o n
    rw [compare_checksums_changes_eq_filterMap, List.mem_filterMap]
    constructor
    · rintro ⟨p, hmem, hent⟩
      rw [cc_entry_eq_some_iff] at hent
      obtain ⟨rfl, hnew, hne⟩ := hent
      exact ⟨(lookup_eq_some_iff_mem oldobj hnodup k o).mpr hmem, hnew, hne⟩
    · rintro ⟨hold, hnew, hne⟩
      exact ⟨(k, o), (lookup_eq_some_iff_mem oldobj hnodup k o).mp hold,
        (cc_entry_eq_some_iff newobj (k, o) k o n).mpr ⟨rfl, hnew, hne⟩⟩
  · rfl

/-- C1 witness: the general characterisation applied to the example maps puts
`(b, y, z)` in the changes map. -/
theorem claim1_witness :
    ("b", "y", "z") ∈ compare_checksums_changes [("a", "x"), ("b", "y")]
      [("a", "x"), ("b", "z"), ("c", "w")] :=
  (claim1_changes_characterisation.1 [("a", "x"), ("b", "y")]
      [("a", "x"), ("b", "z"), ("c", "w")] (by decide) "b" "y" "z").mpr
    ⟨rfl, rfl, by decide⟩

/-- C2 counterexample: diffing two identical maps records no change, yet one
`OBJUPDATE` event (with an empty changes map) is still emitted — the
`AssimEvent` call sits after the loop unconditionally. -/
theorem claim2_counterexample :
    (compare_checksums [("a", "x")] [("a", "x")]).1 = [] ∧
    (compare_checksums [("a", "x")] [("a", "x")]).2.2 =
      [⟨"OBJUPDATE", "checksums", []⟩] :=
  ⟨rfl, rfl⟩

/-- C2 (amended): whenever a checksum packet is diffed against a stored
snapshot, exactly one `OBJUPDATE` event carrying
`{CHANGETYPE: checksums, changes}` is emitted, whether or not the changes map
is empty; when no snapshot is stored no diff happens and no event is
emitted. -/
theorem claim2_event_always_once :
    ∀ (old : Option ChecksumPacket) (jsonobj : ChecksumPacket),
      (processchecksumpkt old jsonobj).2.2.2 =
        match old with
        | none => []
        | some oldpkt =>
            [⟨"OBJUPDATE", "checksums",
              compare_checksums_changes oldpkt.data jsonobj.data⟩] := by
  intro old jsonobj
  cases old <;> rfl

/-- C4 counterexample: the initial file list has five entries, not four — it
also contains `/tmp/foobar`. -/
theorem claim4_counterexample :
    (processtcpdiscoverypkt []).filelist ≠
      ["/bin/sh", "/bin/bash", "/bin/login", "/usr/bin/passwd"] ∧
    "/tmp/foobar" ∈ (processtcpdiscoverypkt []).filelist :=
  ⟨by decide, by decide⟩

/-- C4 (amended): for every `tcpdiscovery` packet the generated file list
starts from exactly the five base files `/bin/sh`, `/bin/bash`, `/bin/login`,
`/usr/bin/passwd`, `/tmp/foobar` (before per-process executables are
appended), and the command list is exactly the eight checksum commands. -/
theorem claim4_base_lists :
    ∀ (data : List (String × ProcInfo)),
      (processtcpdiscoverypkt data).filelist.take 5 =
        ["/bin/sh", "/bin/bash", "/bin/login", "/usr/bin/passwd", "/tmp/foobar"] ∧
      (processtcpdiscoverypkt data).sumcmds =
        ["/usr/bin/sha256sum", "/usr/bin/sha224sum", "/usr/bin/sha384sum",
         "/usr/bin/sha512sum", "/usr/bin/sha1sum", "/usr/bin/md5sum",
         "/usr/bin/cksum", "/usr/bin/crc32"] := by
  intro data
  exact ⟨rfl, rfl⟩

/-- C5: on the first checksum packet (no stored snapshot) nothing is diffed,
logged or emitted and the snapshot is stored; and after any checksum packet
the stored snapshot is the raw new packet. -/
theorem claim5_snapshot_semantics :
    ∀ (jsonobj : ChecksumPacket),
      processchecksumpkt none jsonobj = (some jsonobj, [], 0, []) ∧
      ∀ (old : Option ChecksumPacket),
        (processchecksumpkt old jsonobj).1 = some jsonobj := by
  intro jsonobj
  exact ⟨rfl, fun old => by cases old <;> rfl⟩

/-- C6: a device is included in the switch-discovery batch exactly when its
`operstate` is `up`, its `carrier` is `True`, and its `address` is present,
non-empty and not the all-zero MAC; in particular an `operstate=down` device
yields no request and an up device with a real MAC yields one. -/
theorem claim6_link_up_filter :
    (∀ devinfo : DevInfo,
      discovery_indicates_link_is_up devinfo = true ↔
        (devinfo.operstate = some "up" ∧ devinfo.carrier = some "True" ∧
         ∃ addr, devinfo.address = some addr ∧ addr ≠ "" ∧
           addr ≠ "00-00-00-00-00-00")) ∧
    processpkt_netconfig []
      [("eth0", ⟨some "down", some "True", some "AA:BB:CC:DD:EE:FF"⟩)] = [] ∧
    (processpkt_netconfig []
      [("eth0", ⟨some "up", some "True", some "AA:BB:CC:DD:EE:FF"⟩)]).length = 1 := by
  refine ⟨?_, rfl, rfl⟩
  rintro ⟨o, c, a⟩
  cases o <;> cases c <;> cases a <;>
    simp [discovery_indicates_link_is_up] <;> tauto

/-- The parameter-collecting fold of `processpkt_netconfig` is the map of
`sw_params` over the link-up devices. -/
theorem netconfig_fold_eq_filter_map (init_params : List (String × String)) :
    ∀ (l : List (String × DevInfo)) (init : List SwParams),
      l.foldl (fun acc p =>
        if discovery_indicates_link_is_up p.2 then acc ++ [sw_params init_params p.1]
        else acc) init
        = init ++ (l.filter fun p => discovery_indicates_link_is_up p.2).map
            (fun p => sw_params init_params p.1) := by
  intro l
  induction l with
  | nil => intro init; simp
  | cons p t ih =>
      intro init
      by_cases hp : discovery_indicates_link_is_up p.2 <;>
        simp [hp, ih, List.filter_cons]

/-- C7: a `netconfig` packet with N qualifying devices yields no request when
N = 0 and exactly one request carrying their N parameter sets otherwise. -/
theorem claim7_batch_request :
    ∀ (init_params : List (String × String)) (data : List (String × DevInfo)),
      processpkt_netconfig init_params data =
        (if (data.filter fun p => discovery_indicates_link_is_up p.2).isEmpty then []
         else [(data.filter fun p => discovery_indicates_link_is_up p.2).map
                 fun p => sw_params init_params p.1]) := by
  intro init_params data
  unfold processpkt_netconfig
  rw [netconfig_fold_eq_filter_map init_params data []]
  cases hfl : (data.filter fun p => discovery_indicates_link_is_up p.2) with
  | nil => simp
  | cons q qs => simp

/-- Characterisation of the classpath scan at the first `-cp` occurrence: when
index `j` holds the first `-cp` token and a token follows it, the scan returns
the colon-split of that following token. -/
theorem find_cp_jars_spec :
    ∀ (cmdline : List String) (j : Nat),
      (∀ i, i < j → cmdline[i]? ≠ some "-cp") →
      cmdline[j]? = some "-cp" → j + 1 < cmdline.length →
      find_cp_jars cmdline = py_split ((cmdline[j + 1]?).getD "") ':' := by
  intro cmdline
  induction cmdline with
  | nil => intro j _ hj _; simp at hj
  | cons a rest ih =>
      intro j hfirst hj hlen
      cases j with
      | zero =>
          simp only [List.getElem?_cons_zero, Option.some.injEq] at hj
          subst hj
          cases rest with
          | nil => simp at hlen
          | cons b rest2 => simp [find_cp_jars]
      | succ k =>
          have ha : ¬a = "-cp" := by
            have h0 := hfirst 0 (Nat.succ_pos k)
            simpa using h0
          cases rest with
          | nil => simp at hj
          | cons b rest2 =>
              have hred : find_cp_jars (a :: b :: rest2) = find_cp_jars (b :: rest2) := by
                simp [find_cp_jars, ha]
              rw [hred, List.getElem?_cons_succ]
              refine ih k (fun i hi => ?_) (by simpa using hj) ?_
              · have := hfirst (i + 1) (Nat.succ_lt_succ hi)
                simpa using this
              · simp only [List.length_cons] at hlen ⊢
                omega

/-- Every file a process entry contributes is in the generated file list. -/
theorem proc_files_subset_filelist :
    ∀ (data : List (String × ProcInfo)) (procname : String) (procinfo : ProcInfo)
      (f : String), (procname, procinfo) ∈ data → f ∈ proc_files procinfo →
      f ∈ (processtcpdiscoverypkt data).filelist := by
  intro data procname procinfo f hmem hf
  simp only [processtcpdiscoverypkt, List.mem_append, List.mem_flatten]
  right
  exact ⟨proc_files procinfo, List.mem_map.mpr ⟨(procname, procinfo), hmem, rfl⟩, hf⟩

/-- C8: for any process entry whose `exe` ends in `/java` and whose `cmdline`
has its first `-cp` token followed by another token, the executable and every
colon-separated segment of that following token land in the generated file
list. -/
theorem claim8_java_classpath :
    ∀ (data : List (String × ProcInfo)) (procname : String) (procinfo : ProcInfo)
      (exename : String) (cmdline : List String) (j : Nat),
      (procname, procinfo) ∈ data →
      procinfo.exe = some exename →
      py_endswith exename "/java" = true →
      procinfo.cmdline = some cmdline →
      cmdline[j]? = some "-cp" →
      (∀ i, i < j → cmdline[i]? ≠ some "-cp") →
      j + 1 < cmdline.length →
      exename ∈ (processtcpdiscoverypkt data).filelist ∧
      ∀ jar ∈ py_split ((cmdline[j + 1]?).getD "") ':',
        jar ∈ (processtcpdiscoverypkt data).filelist := by
  intro data procname procinfo exename cmdline j hmem hexe hjava hcmd hj hfirst hlen
  have hpf : proc_files procinfo = exename :: find_cp_jars cmdline := by
    simp [proc_files, hexe, hjava, hcmd]
  have hjars := find_cp_jars_spec cmdline j hfirst hj hlen
  constructor
  · exact proc_files_subset_filelist data procname procinfo exename hmem
      (by rw [hpf]; exact List.mem_cons_self _ _)
  · intro jar hjar
    refine proc_files_subset_filelist data procname procinfo jar hmem ?_
    rw [hpf]
    exact List.mem_cons_of_mem _ (by rw [hjars]; exact hjar)

/-- C8 witness: the example process entry puts `/a.jar`, `/b.jar` and
`/usr/bin/java` in the generated file list. -/
theorem claim8_witness :
    "/a.jar" ∈ (processtcpdiscoverypkt
      [("pid1", ⟨some "/usr/bin/java",
        some ["java", "-cp", "/a.jar:/b.jar", "Main"]⟩)]).filelist ∧
    "/b.jar" ∈ (processtcpdiscoverypkt
      [("pid1", ⟨some "/usr/bin/java",
        some ["java", "-cp", "/a.jar:/b.jar", "Main"]⟩)]).filelist ∧
    "/usr/bin/java" ∈ (processtcpdiscoverypkt
      [("pid1", ⟨some "/usr/bin/java",
        some ["java", "-cp", "/a.jar:/b.jar", "Main"]⟩)]).filelist := by
  have h := claim8_java_classpath
    [("pid1", ⟨some "/usr/bin/java", some ["java", "-cp", "/a.jar:/b.jar", "Main"]⟩)]
    "pid1" ⟨some "/usr/bin/java", some ["java", "-cp", "/a.jar:/b.jar", "Main"]⟩
    "/usr/bin/java" ["java", "-cp", "/a.jar:/b.jar", "Main"] 1
    (by simp) rfl (by decide) rfl rfl
    (by intro i hi; have h0 : i = 0 := Nat.lt_one_iff.mp hi; subst h0; decide)
    (by decide)
  exact ⟨h.2 "/a.jar" (by decide), h.2 "/b.jar" (by decide), h.1⟩

/-- C3 counterexample: a first port whose `ConnectsToHost` is present but
differs from the drone's designation fails the `assert`; the resulting
`AssertionError` is not a `KeyError`, so it escapes and the sibling port is
never processed — its NIC upsert does not appear in the trace. -/
theorem claim3_counterexample :
    process_ports "h1" ["eth0"] "c1"
        [("p1", ⟨some "P1", none, some "otherhost", some "eth0"⟩),
         ("p2", ⟨some "P2", some "m2", some "h1", some "eth0"⟩)] =
      ([GraphAction.loadOrCreate "NICNode" ["c1", "P1"],
        GraphAction.relate "nicowner" "P1"], [], some PyError.assertionError) ∧
    GraphAction.loadOrCreate "NICNode" ["m2", "P2"] ∉
      (process_ports "h1" ["eth0"] "c1"
        [("p1", ⟨some "P1", none, some "otherhost", some "eth0"⟩),
         ("p2", ⟨some "P2", some "m2", some "h1", some "eth0"⟩)]).1 :=
  ⟨rfl, by decide⟩

/-- A port with a `PortId` whose `ConnectsToHost`, when present, matches the
designation raises nothing: its NIC upsert happens, and a missing
`ConnectsToHost` or `ConnectsToInterface` only logs an error. -/
theorem process_one_port_ok (designation : String) (niclist : List String)
    (chassisid : String) (p : Port)
    (h1 : p.portId ≠ none)
    (h2 : p.connectsToHost = none ∨ p.connectsToHost = some designation) :
    (process_one_port designation niclist chassisid p).2.2 = none ∧
    GraphAction.loadOrCreate "NICNode" [p.sourceMAC.getD chassisid, p.portId.getD ""]
      ∈ (process_one_port designation niclist chassisid p).1 ∧
    ((p.connectsToHost = none ∨ p.connectsToInterface = none) →
      LogEvent.error ∈ (process_one_port designation niclist chassisid p).2.1) := by
  obtain ⟨pid, smac, ch, ci⟩ := p
  cases pid with
  | none => exact absurd rfl h1
  | some portid =>
      cases ch with
      | none =>
          exact ⟨rfl, by simp [process_one_port], fun _ => by simp [process_one_port]⟩
      | some h =>
          have hd : h = designation := by
            rcases h2 with h2 | h2
            · exact absurd h2 (by simp)
            · simpa using h2
          subst hd
          cases ci with
          | none =>
              refine ⟨?_, ?_, fun _ => ?_⟩ <;> simp [process_one_port]
          | some matchif =>
              cases hf : niclist.find? (fun n => n == matchif) with
              | none =>
                  refine ⟨?_, ?_, ?_⟩
                  · simp [process_one_port, hf]
                  · simp [process_one_port, hf]
                  · rintro (hc | hc) <;> simp at hc
              | some dronenic =>
                  refine ⟨?_, ?_, ?_⟩
                  · simp [process_one_port, hf]
                  · simp [process_one_port, hf]
                  · rintro (hc | hc) <;> simp at hc

/-- Unfolding of `process_ports` over a port that raises nothing. -/
theorem process_ports_cons_ok (designation : String) (niclist : List String)
    (chassisid portname : String) (thisport : Port) (rest : List (String × Port))
    (h : (process_one_port designation niclist chassisid thisport).2.2 = none) :
    process_ports designation niclist chassisid ((portname, thisport) :: rest) =
      ((process_one_port designation niclist chassisid thisport).1 ++
         (process_ports designation niclist chassisid rest).1,
       (process_one_port designation niclist chassisid thisport).2.1 ++
         (process_ports designation niclist chassisid rest).2.1,
       (process_ports designation niclist chassisid rest).2.2) := by
  simp only [process_ports]
  rw [h]

/-- C3 (amended): within one packet, every port whose `PortId` is present and
whose `ConnectsToHost`, if present, matches the discovering host's designation
is processed without aborting — in particular a port missing `ConnectsToHost`
or `ConnectsToInterface` is skipped with an error logged and all sibling ports
are still processed.  (A present-but-mismatching `ConnectsToHost` instead
raises an uncaught `AssertionError` aborting the packet, per the
counterexample.) -/
theorem claim3_missing_fields_skipped :
    ∀ (designation : String) (niclist : List String) (chassisid : String)
      (ports : List (String × Port)),
      (∀ q ∈ ports, q.2.portId ≠ none ∧
        (q.2.connectsToHost = none ∨ q.2.connectsToHost = some designation)) →
      (process_ports designation niclist chassisid ports).2.2 = none ∧
      (∀ q ∈ ports,
        GraphAction.loadOrCreate "NICNode"
            [q.2.sourceMAC.getD chassisid, q.2.portId.getD ""]
          ∈ (process_ports designation niclist chassisid ports).1) ∧
      (∀ q ∈ ports,
        (q.2.connectsToHost = none ∨ q.2.connectsToInterface = none) →
        LogEvent.error ∈ (process_ports designation niclist chassisid ports).2.1) := by
  intro designation niclist chassisid ports
  induction ports with
  | nil => exact fun _ => ⟨rfl, by simp, by simp⟩
  | cons q rest ih =>
      intro hports
      obtain ⟨hq1, hq2⟩ := hports q (List.mem_cons_self q rest)
      obtain ⟨ihe, ihm, ihl⟩ := ih (fun r hr => hports r (List.mem_cons_of_mem q hr))
      obtain ⟨qn, qp⟩ := q
      obtain ⟨pe, pm, pl⟩ :=
        process_one_port_ok designation niclist chassisid qp hq1 hq2
      rw [process_ports_cons_ok designation niclist chassisid qn qp rest pe]
      refine ⟨ihe, ?_, ?_⟩
      · intro r hr
        rcases List.mem_cons.mp hr with rfl | hr2
        · exact List.mem_append_left _ pm
        · exact List.mem_append_right _ (ihm r hr2)
      · intro r hr hcond
        rcases List.mem_cons.mp hr with rfl | hr2
        · exact List.mem_append_left _ (pl hcond)
        · exact List.mem_append_right _ (ihl r hr2 hcond)

/-- C3 witness: a packet with one field-missing port and one good port raises
nothing, upserts both NICs and logs the error for the bad port. -/
theorem claim3_witness :
    (process_ports "h1" ["eth0"] "c1"
        [("p1", ⟨some "P1", none, none, none⟩),
         ("p2", ⟨some "P2", some "m2", some "h1", some "eth0"⟩)]).2.2 = none ∧
    GraphAction.loadOrCreate "NICNode" ["c1", "P1"] ∈
      (process_ports "h1" ["eth0"] "c1"
        [("p1", ⟨some "P1", none, none, none⟩),
         ("p2", ⟨some "P2", some "m2", some "h1", some "eth0"⟩)]).1 ∧
    GraphAction.loadOrCreate "NICNode" ["m2", "P2"] ∈
      (process_ports "h1" ["eth0"] "c1"
        [("p1", ⟨some "P1", none, none, none⟩),
         ("p2", ⟨some "P2", some "m2", some "h1", some "eth0"⟩)]).1 ∧
    LogEvent.error ∈
      (process_ports "h1" ["eth0"] "c1"
        [("p1", ⟨some "P1", none, none, none⟩),
         ("p2", ⟨some "P2", some "m2", some "h1", some "eth0"⟩)]).2.1 := by
  have h := claim3_missing_fields_skipped "h1" ["eth0"] "c1"
    [("p1", ⟨some "P1", none, none, none⟩),
     ("p2", ⟨some "P2", some "m2", some "h1", some "eth0"⟩)] (by decide)
  refine ⟨h.1, ?_, ?_, ?_⟩
  · simpa using h.2.1 ("p1", ⟨some "P1", none, none, none⟩) (by simp)
  · simpa using h.2.1 ("p2", ⟨some "P2", some "m2", some "h1", some "eth0"⟩) (by simp)
  · exact h.2.2 ("p1", ⟨some "P1", none, none, none⟩) (by simp) (Or.inl rfl)

/-- C9: a `__LinkDiscovery` packet without `ChassisId` only logs one warning
and returns — no graph call, no role assignment, no exception. -/
theorem claim9_missing_chassisid :
    ∀ (addrtype : String → AddrFamily) (addreq : String → String → Bool)
      (designation : String) (niclist : List String) (data : LinkData),
      data.chassisId = none →
      processpkt_linkdiscovery addrtype addreq designation niclist data =
        ([], [LogEvent.warning], none) := by
  intro f g designation niclist data h
  obtain ⟨cid, caps, ma, ports⟩ := data
  cases cid with
  | none => rfl
  | some c => simp at h

/-- C9 witness: the empty-data packet has no `ChassisId` and produces exactly
the single-warning trace. -/
theorem claim9_witness :
    processpkt_linkdiscovery (fun _ => AddrFamily.other) (fun _ _ => true) "h1" []
      ⟨none, none, none, []⟩ = ([], [LogEvent.warning], none) :=
  claim9_missing_chassisid (fun _ => AddrFamily.other) (fun _ _ => true) "h1" []
    ⟨none, none, none, []⟩ rfl

/-- C10: with the changed flag false, `processpkt` returns before reading the
packet: no graph call, no log, no discovery request, no stderr line, no
exception, for every packet kind. -/
theorem claim10_unchanged_is_noop :
    ∀ (addrtype : String → AddrFamily) (addreq : String → String → Bool)
      (designation : String) (init_params : List (String × String))
      (niclist : List String) (jsonobj : LDPkt),
      processpkt addrtype addreq designation init_params niclist jsonobj false =
        { actions := [], logs := [], requests := [], oops := false, err := none } := by
  intro _ _ _ _ _ _
  rfl
